import Mathlib

/-!
# fastapi-todo-api — verification of the task engine and auth layer

A shallow embedding of the core of the `fastapi-todo-api` repository:
the task query engine (`app/routes/tasks.py`), the request schemas
(`app/schemas.py`), the ORM data model (`app/models.py`), the token
service (`app/security.py`) and the authentication endpoints
(`app/routes/auth.py`).

Strings are modelled as `List Char` so that every definition reduces in
the kernel.  The relational store is modelled as a `List Task` /
`List User`; SQL `ILIKE` is modelled by a case-insensitive `LIKE`
matcher with the `%` and `_` wildcards (the escape-free semantics of
the SQLite engine the repository's own test suite runs on).
-/

namespace TodoApi

/-- `app/models.py` `TaskStatus`: the closed status enumeration
{New, In Progress, Completed}. -/
inductive TaskStatus
  | new
  | inProgress
  | completed
deriving DecidableEq, Repr

/-- The three wire-level strings of `schemas.StatusLiteral`
("New", "In Progress", "Completed"). -/
def statusString : TaskStatus → List Char
  | .new => ['N','e','w']
  | .inProgress => ['I','n',' ','P','r','o','g','r','e','s','s']
  | .completed => ['C','o','m','p','l','e','t','e','d']

/-- `models.TaskStatus(value)`: the string-to-enum cast used by the route
handlers; `none` models the `ValueError` raised on a string outside the
enumeration. -/
def taskStatusOfString (s : List Char) : Option TaskStatus :=
  if s = statusString .new then some .new
  else if s = statusString .inProgress then some .inProgress
  else if s = statusString .completed then some .completed
  else none

/-- `app/models.py` `Task` ORM row.  `title`, `description` and `status`
are `Option`-valued because a Python ORM attribute can be assigned
`None` even when its column is declared `nullable=False`; a row read
from the store always has `title = some _` and `status = some _`. -/
structure Task where
  id : Nat
  title : Option (List Char)
  description : Option (List Char)
  status : Option TaskStatus
  user_id : Nat
deriving DecidableEq, Repr

/-- `app/models.py` `User` ORM row (password already hashed). -/
structure User where
  id : Nat
  first_name : List Char
  last_name : Option (List Char)
  username : List Char
  password : List Char
deriving DecidableEq, Repr

/-- An HTTP error response: `HTTPException(status_code, detail)`, or the
FastAPI/pydantic 422 produced when request validation fails before the
handler runs. -/
structure ApiError where
  code : Nat
  detail : List Char
deriving DecidableEq, Repr

/-- The FastAPI/pydantic request-validation error (HTTP 422). -/
def validationError422 : ApiError :=
  { code := 422, detail := ['v','a','l','i','d','a','t','i','o','n'] }

/-- `HTTPException(404, "Task not found")`. -/
def taskNotFound404 : ApiError :=
  { code := 404, detail := "Task not found".data }

/-- `HTTPException(403, "You are not the owner of this task")`. -/
def notOwner403 : ApiError :=
  { code := 403, detail := "You are not the owner of this task".data }

/-- `HTTPException(400, "Invalid status")` raised inside `update_task`. -/
def invalidStatus400 : ApiError :=
  { code := 400, detail := "Invalid status".data }

/-- The 500 response FastAPI produces for an exception no handler
catches — here the `IntegrityError` raised by `db.commit()` when a
mutation violates a NOT NULL column constraint; the transaction fails,
so nothing is persisted. -/
def internalError500 : ApiError :=
  { code := 500, detail := "Internal Server Error".data }

/-- `db.get(models.Task, task_id)`: primary-key lookup in the store. -/
def dbGetTask (db : List Task) (task_id : Nat) : Option Task :=
  db.find? (fun t => t.id == task_id)

/-- `db.commit()` after mutating the ORM object with primary key
`task_id`: the row with that id now holds `t'`. -/
def dbPutTask (db : List Task) (task_id : Nat) (t' : Task) : List Task :=
  db.map (fun u => if u.id == task_id then t' else u)

/-- Case-insensitive character comparison used by SQL `ILIKE`. -/
def chEq (a b : Char) : Bool :=
  Char.toLower a == Char.toLower b

/-- SQL `LIKE` pattern matching, case-insensitive (`ILIKE`): `%` matches
any sequence, `_` matches any single character, every other pattern
character matches itself up to case.  No escape character (the SQLite
semantics of a `LIKE` without an `ESCAPE` clause, which is what the
repository's test suite exercises). -/
def likeMatch : List Char → List Char → Bool
  | [], s => s.isEmpty
  | p :: ps, s =>
    if p = '%' then
      likeMatch ps s ||
        (match s with
         | [] => false
         | _ :: rest => likeMatch (p :: ps) rest)
    else if p = '_' then
      match s with
      | [] => false
      | _ :: rest => likeMatch ps rest
    else
      match s with
      | [] => false
      | c :: rest => chEq p c && likeMatch ps rest
termination_by p s => (p.length, s.length)

/-- `f"%{q}%"`: the pattern built by `list_tasks` / `list_my_tasks`
around the raw search string `q`. -/
def likePattern (q : List Char) : List Char :=
  '%' :: (q ++ ['%'])

/-- `column.ilike(like)` applied to a nullable column value: SQL `NULL
ILIKE p` is not true, so a `none` never satisfies the filter. -/
def colLike (v : Option (List Char)) (pat : List Char) : Bool :=
  match v with
  | none => false
  | some s => likeMatch pat s

/-- The four columns the listing endpoints may sort on. -/
inductive SortCol
  | cid
  | ctitle
  | cstatus
  | cuser
deriving DecidableEq, Repr

/-- `_order_column(sort_by)` from `app/routes/tasks.py`: maps the sort
field name to a column, any unrecognized name falling back to the `id`
column ("default + stable tie-break fallback"). -/
def _order_column (sort_by : List Char) : SortCol :=
  if sort_by = "title".data then .ctitle
  else if sort_by = "status".data then .cstatus
  else if sort_by = "user_id".data then .cuser
  else .cid

/-- Lexicographic comparison of strings by code point (SQL text
ordering). -/
def charsCmp : List Char → List Char → Ordering
  | [], [] => .eq
  | [], _ :: _ => .lt
  | _ :: _, [] => .gt
  | a :: as, b :: bs =>
    match compare a.toNat b.toNat with
    | .eq => charsCmp as bs
    | o => o

/-- Position of a status in the enum declaration order (the order of a
PostgreSQL `ENUM` column, which `database.py` configures). -/
def statusRank : TaskStatus → Nat
  | .new => 0
  | .inProgress => 1
  | .completed => 2

/-- Ascending comparison on a nullable column, `NULLS LAST` (the
PostgreSQL default for `ASC`). -/
def optCmpAsc (cmp : α → α → Ordering) : Option α → Option α → Ordering
  | none, none => .eq
  | none, some _ => .gt
  | some _, none => .lt
  | some a, some b => cmp a b

/-- Ascending comparison of two tasks on one sort column. -/
def colCmpAsc (col : SortCol) (a b : Task) : Ordering :=
  match col with
  | .cid => compare a.id b.id
  | .ctitle => optCmpAsc charsCmp a.title b.title
  | .cstatus => optCmpAsc (fun x y => compare (statusRank x) (statusRank y)) a.status b.status
  | .cuser => compare a.user_id b.user_id

/-- `ORDER BY order_expr, id DESC`: primary sort on `col` in direction
`sort_dir`, ties broken by `id` descending (a `DESC` column is the exact
reverse of the `ASC` one, nulls included). -/
def taskLe (col : SortCol) (ascending : Bool) (a b : Task) : Bool :=
  match (if ascending then colCmpAsc col a b else colCmpAsc col b a) with
  | .lt => true
  | .gt => false
  | .eq => b.id ≤ a.id

/-- Insert into a sorted list (helper of `sortTasks`). -/
def insertLe (le : Task → Task → Bool) (x : Task) : List Task → List Task
  | [] => [x]
  | y :: ys => if le x y then x :: y :: ys else y :: insertLe le x ys

/-- The SQL `ORDER BY`, modelled as a sort of the filtered row list. -/
def sortTasks (le : Task → Task → Bool) : List Task → List Task
  | [] => []
  | x :: xs => insertLe le x (sortTasks le xs)

/-- The two `.where(...)` clauses of `list_tasks` / `list_my_tasks`:
`status == TaskStatus(status_filter)` when `status_filter` is truthy,
then `title ILIKE %q% OR description ILIKE %q%` when `q` is truthy
(Python truthiness: `None` and the empty string both skip the
clause). -/
def applyFilters (status_filter : Option TaskStatus) (q : Option (List Char))
    (rows : List Task) : List Task :=
  let s1 :=
    match status_filter with
    | some st => rows.filter (fun t => t.status == some st)
    | none => rows
  match q with
  | none => s1
  | some qs =>
    if qs.isEmpty then s1
    else
      s1.filter (fun t =>
        colLike t.title (likePattern qs) || colLike t.description (likePattern qs))

/-- `schemas.PaginatedTasks`, exactly as declared in `app/schemas.py`:
fields `items`, `total`, `page`, `limit` — and no `total_pages` field. -/
structure PaginatedTasks where
  items : List Task
  total : Nat
  page : Nat
  limit : Nat
deriving DecidableEq, Repr

/-- `(total + limit - 1) // limit`, the handler's local `total_pages`
computation (`ceil(total/limit)` for positive `limit`). -/
def totalPagesOf (total limit : Nat) : Nat :=
  (total + limit - 1) / limit

/-- The shared body of `list_tasks` and `list_my_tasks` (the two
handlers are identical after their initial scope): filter, count before
pagination, sort with the id-descending tie-break, then
`offset((page-1)*limit).limit(limit)`.  The handler also computes
`total_pages`, but the `schemas.PaginatedTasks(... total_pages=...)`
constructor call silently drops that keyword because the pydantic model
declares no such field. -/
def listPipeline (rows : List Task) (status_filter : Option TaskStatus)
    (q : Option (List Char)) (sort_by sort_dir : List Char)
    (page limit : Nat) : PaginatedTasks :=
  let filtered := applyFilters status_filter q rows
  let total := filtered.length
  let _total_pages := totalPagesOf total limit
  let col := _order_column sort_by
  let sorted := sortTasks (taskLe col (sort_dir = "asc".data)) filtered
  let items := (sorted.drop ((page - 1) * limit)).take limit
  { items := items, total := total, page := page, limit := limit }

/-- `list_tasks` (`GET /tasks`): all rows, no ownership scope. -/
def list_tasks (db : List Task) (status_filter : Option TaskStatus)
    (q : Option (List Char)) (sort_by sort_dir : List Char)
    (page limit : Nat) : PaginatedTasks :=
  listPipeline db status_filter q sort_by sort_dir page limit

/-- `list_my_tasks` (`GET /tasks/mine`): scoped by
`Task.user_id == current_user.id`. -/
def list_my_tasks (db : List Task) (current_user : Nat)
    (status_filter : Option TaskStatus) (q : Option (List Char))
    (sort_by sort_dir : List Char) (page limit : Nat) : PaginatedTasks :=
  listPipeline (db.filter (fun t => t.user_id == current_user))
    status_filter q sort_by sort_dir page limit

/-- FastAPI validation of the `status` query parameter, declared
`Optional[schemas.StatusLiteral]`: absent is fine, any string outside
the three literals is rejected with a 422 before the handler runs. -/
def parseStatusParam (raw : Option (List Char)) :
    Except ApiError (Option TaskStatus) :=
  match raw with
  | none => .ok none
  | some s =>
    match taskStatusOfString s with
    | some st => .ok (some st)
    | none => .error validationError422

/-- FastAPI validation of `sort_by`, declared
`Literal["id", "title", "status", "user_id"] = "id"`: absent defaults
to `"id"`, any other string is rejected with a 422. -/
def parseSortBy (raw : Option (List Char)) : Except ApiError (List Char) :=
  match raw with
  | none => .ok ("id".data)
  | some s =>
    if s = "id".data ∨ s = "title".data ∨ s = "status".data ∨ s = "user_id".data then
      .ok s
    else
      .error validationError422

/-- FastAPI validation of `sort_dir`, declared
`Literal["asc", "desc"] = "desc"`. -/
def parseSortDir (raw : Option (List Char)) : Except ApiError (List Char) :=
  match raw with
  | none => .ok ("desc".data)
  | some s =>
    if s = "asc".data ∨ s = "desc".data then .ok s else .error validationError422

/-- FastAPI validation of `page`, declared `Query(1, ge=1)`. -/
def parsePage (raw : Option Int) : Except ApiError Nat :=
  match raw with
  | none => .ok 1
  | some p => if 1 ≤ p then .ok p.toNat else .error validationError422

/-- FastAPI validation of `limit`, declared `Query(10, ge=1, le=100)`. -/
def parseLimit (raw : Option Int) : Except ApiError Nat :=
  match raw with
  | none => .ok 10
  | some l => if 1 ≤ l ∧ l ≤ 100 then .ok l.toNat else .error validationError422

/-- `GET /tasks` as reached from the wire: the declared query-parameter
types are enforced by FastAPI (any violation is a 422 and the handler
never runs), then `list_tasks` executes. -/
def list_tasks_route (db : List Task) (statusRaw qRaw sortByRaw sortDirRaw :
    Option (List Char)) (pageRaw limitRaw : Option Int) :
    Except ApiError PaginatedTasks :=
  match parseStatusParam statusRaw with
  | .error e => .error e
  | .ok status_filter =>
    match parseSortBy sortByRaw with
    | .error e => .error e
    | .ok sort_by =>
      match parseSortDir sortDirRaw with
      | .error e => .error e
      | .ok sort_dir =>
        match parsePage pageRaw with
        | .error e => .error e
        | .ok page =>
          match parseLimit limitRaw with
          | .error e => .error e
          | .ok limit =>
            .ok (list_tasks db status_filter qRaw sort_by sort_dir page limit)

/-- `get_task` (`GET /tasks/{task_id}`): a primary-key lookup guarded
only by authentication.  The handler binds the current user to `_` and
never consults it — there is no ownership check. -/
def get_task (db : List Task) (task_id : Nat) (_caller : Nat) :
    Except ApiError Task :=
  match dbGetTask db task_id with
  | none => .error taskNotFound404
  | some t => .ok t

deriving instance DecidableEq for Except

/-- Result of a mutating handler: the store after the call, the `Except`
outcome, and the number of successful `db.commit()` calls, i.e. writes
that persisted (instrumentation used to state the no-double-write
property; the source commits at most once per handler, and a commit
that raises `IntegrityError` persists nothing). -/
structure DbResult (α : Type) where
  db : List Task
  res : Except ApiError α
  commits : Nat
deriving DecidableEq, Repr

/-- `complete_task` (`PATCH /tasks/{task_id}/complete`): 404 when
missing, 403 when the caller is not the owner, otherwise sets the
status to Completed — skipping the write entirely when the status
already is Completed. -/
def complete_task (db : List Task) (task_id : Nat) (current_user : Nat) :
    DbResult Task :=
  match dbGetTask db task_id with
  | none => { db := db, res := .error taskNotFound404, commits := 0 }
  | some task =>
    if task.user_id ≠ current_user then
      { db := db, res := .error notOwner403, commits := 0 }
    else if task.status ≠ some .completed then
      let task' := { task with status := some .completed }
      { db := dbPutTask db task_id task', res := .ok task', commits := 1 }
    else
      { db := db, res := .ok task, commits := 0 }

/-- A pydantic `TaskUpdate` as the handler receives it.  Each field is
`Option (Option _)`: the outer layer records whether the key was present
in the request body at all (what `model_dump(exclude_unset=True)`
reports), the inner layer whether it was JSON `null` or a value.  The
`status` value is kept as the raw string the body carried. -/
structure TaskUpdate where
  title : Option (Option (List Char))
  description : Option (Option (List Char))
  status : Option (Option (List Char))
deriving DecidableEq, Repr

/-- Pydantic validation of a `TaskUpdate` body
(`app/schemas.py`): `title: Optional[str]` with `min_length=1`,
`max_length=200` (the length bounds apply only to an actual string,
`null` passes), `description: Optional[str]` unconstrained, `status:
Optional[StatusLiteral]` — a status string outside the three literals
is rejected with a 422 before the handler runs. -/
def validateTaskUpdate (p : TaskUpdate) : Except ApiError TaskUpdate :=
  match p.title with
  | some (some t) =>
    if 1 ≤ t.length ∧ t.length ≤ 200 then validateStatusField p
    else .error validationError422
  | _ => validateStatusField p
where
  validateStatusField (p : TaskUpdate) : Except ApiError TaskUpdate :=
    match p.status with
    | some (some s) =>
      if (taskStatusOfString s).isSome then .ok p else .error validationError422
    | _ => .ok p

/-- One entry of the `data` dict built by
`payload.model_dump(exclude_unset=True)` (after the in-handler enum
cast for a non-null status). -/
inductive FieldSet
  | ftitle (v : Option (List Char))
  | fdescription (v : Option (List Char))
  | fstatus (v : Option TaskStatus)
deriving DecidableEq, Repr

/-- The `data` dict of `update_task` in field-declaration order (the
order `model_dump` emits), after the handler has replaced a present
non-null status string by its enum value; `none` models a `ValueError`
from `models.TaskStatus(...)`, surfaced as `HTTPException(400, "Invalid
status")`. -/
def buildData (p : TaskUpdate) : Except ApiError (List FieldSet) := do
  let base : List FieldSet :=
    (match p.title with
     | some v => [FieldSet.ftitle v]
     | none => []) ++
    (match p.description with
     | some v => [FieldSet.fdescription v]
     | none => [])
  match p.status with
  | none => .ok base
  | some none => .ok (base ++ [FieldSet.fstatus none])
  | some (some s) =>
    match taskStatusOfString s with
    | some st => .ok (base ++ [FieldSet.fstatus (some st)])
    | none => .error invalidStatus400

/-- `setattr(task, field, value)` for one entry of the `data` dict. -/
def setField (t : Task) : FieldSet → Task
  | .ftitle v => { t with title := v }
  | .fdescription v => { t with description := v }
  | .fstatus v => { t with status := v }

/-- `update_task` (`PATCH /tasks/{task_id}`): 404 when missing, 403 when
the caller is not the owner; otherwise applies exactly the fields
present in the patch (`exclude_unset=True`), casting a present non-null
status through the enum (400 on an unrecognized string), and commits.
The handler has no try/except around `db.commit()`: when the patched
row leaves a NOT NULL column (`title`, `status` in `models.py`) null,
the commit raises `IntegrityError`, the exception propagates uncaught
(FastAPI answers 500) and the failed transaction persists nothing. -/
def update_task (db : List Task) (task_id : Nat) (payload : TaskUpdate)
    (current_user : Nat) : DbResult Task :=
  match dbGetTask db task_id with
  | none => { db := db, res := .error taskNotFound404, commits := 0 }
  | some task =>
    if task.user_id ≠ current_user then
      { db := db, res := .error notOwner403, commits := 0 }
    else
      match buildData payload with
      | .error e => { db := db, res := .error e, commits := 0 }
      | .ok data =>
        let task' := data.foldl setField task
        if task'.title = none ∨ task'.status = none then
          { db := db, res := .error internalError500, commits := 0 }
        else
          { db := dbPutTask db task_id task', res := .ok task', commits := 1 }

/-- The merge an owner-called update is supposed to produce: each field
present in the patch is applied (a present non-null status through the
enum cast), each absent field keeps its stored value. -/
def mergePatch (p : TaskUpdate) (t : Task) : Task :=
  { t with
    title := match p.title with | some v => v | none => t.title,
    description := match p.description with | some v => v | none => t.description,
    status := match p.status with
      | some (some s) => taskStatusOfString s
      | some none => none
      | none => t.status }

/-- `PATCH /tasks/{task_id}` as reached from the wire: pydantic
validates the body (422 on violation), then the handler runs. -/
def update_task_route (db : List Task) (task_id : Nat) (payload : TaskUpdate)
    (current_user : Nat) : DbResult Task :=
  match validateTaskUpdate payload with
  | .error e => { db := db, res := .error e, commits := 0 }
  | .ok p => update_task db task_id p current_user

/-- `delete_task` (`DELETE /tasks/{task_id}`): 404 when missing, 403
when the caller is not the owner, otherwise removes the row and
commits. -/
def delete_task (db : List Task) (task_id : Nat) (current_user : Nat) :
    DbResult Unit :=
  match dbGetTask db task_id with
  | none => { db := db, res := .error taskNotFound404, commits := 0 }
  | some task =>
    if task.user_id ≠ current_user then
      { db := db, res := .error notOwner403, commits := 0 }
    else
      { db := db.filter (fun u => u.id ≠ task.id), res := .ok (), commits := 1 }

/-- ASCII digit of a value < 10 (used to model Python `str()` on a
nonnegative integer). -/
def digitChar : Nat → Char
  | 0 => '0' | 1 => '1' | 2 => '2' | 3 => '3' | 4 => '4'
  | 5 => '5' | 6 => '6' | 7 => '7' | 8 => '8' | 9 => '9'
  | _ => '*'

/-- Value of an ASCII digit; ≥ 10 marks a non-digit character. -/
def digitVal : Char → Nat
  | '0' => 0 | '1' => 1 | '2' => 2 | '3' => 3 | '4' => 4
  | '5' => 5 | '6' => 6 | '7' => 7 | '8' => 8 | '9' => 9
  | _ => 10

/-- Fuel-driven digit expansion (structural, so the kernel can
evaluate it); `fuel > n` suffices. -/
def natToChars (fuel n : Nat) : List Char :=
  match fuel with
  | 0 => []
  | f + 1 =>
    if n < 10 then [digitChar n]
    else natToChars f (n / 10) ++ [digitChar (n % 10)]

/-- Python `str(n)` for a nonnegative integer: its decimal digits. -/
def natToStr (n : Nat) : List Char :=
  natToChars (n + 1) n

/-- Python `int(s)` restricted to plain decimal-digit strings: `none`
models the `ValueError` on anything else.  (CPython also accepts signs
and surrounding whitespace; the subjects this application issues are
always plain digit strings, and forged payloads fail the signature
check first.) -/
def charsToNat (cs : List Char) : Option Nat :=
  if cs ≠ [] ∧ cs.all (fun c => digitVal c < 10) then
    some (cs.foldl (fun a c => a * 10 + digitVal c) 0)
  else
    none

/-- The claim set `{"sub": str(subject), "exp": expire}` of
`create_access_token`; `exp` is an absolute POSIX timestamp in
seconds. -/
structure TokenPayload where
  sub : List Char
  exp : Nat
deriving DecidableEq, Repr

/-- A JWS token under the perfect-MAC model: the payload together with a
signature that binds the signing key to exactly that payload.
Verification with key `k` succeeds precisely when the token was signed
with `k` over the payload it carries. -/
structure Token where
  payload : TokenPayload
  sig : List Char × TokenPayload
deriving DecidableEq, Repr

/-- `security.create_access_token(subject, expires_minutes)`: expiry is
`now + (expires_minutes or ACCESS_TOKEN_EXPIRE_MINUTES)` minutes
(Python `or`: both `None` and `0` fall back to the configured default),
and the payload is `{"sub": str(subject), "exp": expire}` signed with
the process-wide secret. -/
def create_access_token (subject : Nat) (expires_minutes : Option Nat)
    (cfgExpireMinutes : Nat) (secret : List Char) (now : Nat) : Token :=
  let minutes :=
    match expires_minutes with
    | some m => if m = 0 then cfgExpireMinutes else m
    | none => cfgExpireMinutes
  let payload : TokenPayload := { sub := natToStr subject, exp := now + minutes * 60 }
  { payload := payload, sig := (secret, payload) }

/-- `security.decode_token` via `jose.jwt.decode`: checks the signature
against the process secret and rejects an expired token (`exp < now`
with the default zero leeway); `none` models the raised `JWTError`. -/
def decode_token (tok : Token) (secret : List Char) (now : Nat) :
    Option TokenPayload :=
  if tok.sig ≠ (secret, tok.payload) then none
  else if tok.payload.exp < now then none
  else some tok.payload

/-- `HTTPException(401, "Could not validate credentials")`. -/
def cred401 : ApiError :=
  { code := 401, detail := "Could not validate credentials".data }

/-- The subject-resolution half of `get_current_user`: decode the
token, read `sub`, convert with `int(...)` — any `JWTError` or
`ValueError` becomes the 401 credentials error. -/
def verify_subject (tok : Token) (secret : List Char) (now : Nat) :
    Except ApiError Nat :=
  match decode_token tok secret now with
  | none => .error cred401
  | some payload =>
    match charsToNat payload.sub with
    | none => .error cred401
    | some uid => .ok uid

/-- `get_current_user` (`app/routes/auth.py`): resolve the bearer token
to a stored user.  `db.get(models.User, user_id) if user_id else None`:
a falsy id (0) skips the lookup, and a missing user yields the same 401
as an invalid token. -/
def get_current_user (users : List User) (tok : Token) (secret : List Char)
    (now : Nat) : Except ApiError User :=
  match verify_subject tok secret now with
  | .error e => .error e
  | .ok uid =>
    if uid = 0 then .error cred401
    else
      match users.find? (fun u => u.id == uid) with
      | none => .error cred401
      | some u => .ok u

/-- `schemas.UserCreate` as the handler receives it. -/
structure UserCreate where
  first_name : List Char
  last_name : Option (List Char)
  username : List Char
  password : List Char
deriving DecidableEq, Repr

/-- Pydantic validation of a registration body:
`password: str = Field(min_length=6)` rejects a shorter password with a
422 before the handler runs. -/
def validateUserCreate (p : UserCreate) : Except ApiError UserCreate :=
  if p.password.length < 6 then .error validationError422 else .ok p

/-- `HTTPException(400, "Password must be at least 6 characters")`. -/
def pwTooShort400 : ApiError :=
  { code := 400, detail := "Password must be at least 6 characters".data }

/-- `HTTPException(400, "Username already exists")`. -/
def usernameTaken400 : ApiError :=
  { code := 400, detail := "Username already exists".data }

/-- The body of `register` after its in-handler length guard: hash the
password, insert the row, mapping the unique-username `IntegrityError`
(after rollback) to a 400.  `hash` abstracts the external bcrypt
transform of `security.hash_password`; the fresh primary key is the
store's autoincrement. -/
def registerPostGuard (users : List User) (hash : List Char → List Char)
    (p : UserCreate) : Except ApiError (List User × User) :=
  if users.any (fun u => u.username == p.username) then
    .error usernameTaken400
  else
    let uid := (users.map (fun u => u.id)).foldr max 0 + 1
    let u : User :=
      { id := uid, first_name := p.first_name, last_name := p.last_name,
        username := p.username, password := hash p.password }
    .ok (users ++ [u], u)

/-- `register` (`POST /auth/register`) exactly as written: the
"extra guard" re-checks the password length and answers 400, then the
post-guard body runs. -/
def register (users : List User) (hash : List Char → List Char)
    (p : UserCreate) : Except ApiError (List User × User) :=
  if p.password.length < 6 then .error pwTooShort400
  else registerPostGuard users hash p

/-- True when `q` contains neither of the `LIKE` wildcards `%` and
`_`. -/
def noWild (q : List Char) : Bool :=
  q.all (fun c => !(c == '%') && !(c == '_'))

/-- Substring scan: does `needle` occur contiguously in `hay`? -/
def containsSub (needle : List Char) : List Char → Bool
  | [] => needle.isEmpty
  | c :: rest => List.isPrefixOf needle (c :: rest) || containsSub needle rest

/-- Case-insensitive substring test: the spec reading of "q matches
title/description case-insensitively". -/
def substrCI (needle hay : List Char) : Bool :=
  containsSub (needle.map Char.toLower) (hay.map Char.toLower)

/-- Case-insensitive substring test on a nullable column (a SQL `NULL`
contains nothing). -/
def fieldSubstrCI (needle : List Char) (v : Option (List Char)) : Bool :=
  match v with
  | none => false
  | some s => substrCI needle s

/-- Fixture: a task used to evaluate the engine on concrete input. -/
def tMilk : Task :=
  { id := 1, title := some ['B','u','y',' ','m','i','l','k'],
    description := some ['2','L',' ','m','i','l','k'],
    status := some .new, user_id := 1 }

/-- Fixture: a task whose title contains no `%` character. -/
def tAbc : Task :=
  { id := 3, title := some ['a','b','c'], description := none,
    status := some .new, user_id := 1 }

/-- Fixture: a registration body with a 11-character password. -/
def uFarida : UserCreate :=
  { first_name := ("Farida".data), last_name := none,
    username := ("farida".data), password := ("StrongPass1".data) }

/-! ## Helper lemmas -/

theorem find?_id_eq {db : List Task} {tid : Nat} {t : Task}
    (h : dbGetTask db tid = some t) : t.id = tid := by
  have := List.find?_some h
  simpa using this

theorem dbGetTask_put {db : List Task} {tid : Nat} {t : Task} (t' : Task)
    (h : dbGetTask db tid = some t) (h' : t'.id = tid) :
    dbGetTask (dbPutTask db tid t') tid = some t' := by
  unfold dbGetTask at h
  unfold dbGetTask dbPutTask
  induction db with
  | nil => simp at h
  | cons u rest ih =>
    simp only [List.map_cons]
    by_cases hu : (u.id == tid) = true
    · simp only [hu, if_true]
      exact List.find?_cons_of_pos _ (by simp [h'])
    · have hb : (u.id == tid) = false := by simpa using hu
      rw [ List.find?_cons_of_neg _ (by simp [hb])] at h
      simp only [hb, Bool.false_eq_true, if_false]
      rw [ List.find?_cons_of_neg _ (by simp [hb])]
      exact ih h

/-! ## C7: single-task retrieval -/

/-- C7: `get_task` fails with 404 exactly when no task with the given id
exists, and performs no ownership check — its result does not depend on
which authenticated caller asks, and any caller receives an existing
task. -/
theorem get_task_spec (db : List Task) (task_id caller caller' : Nat) :
    (get_task db task_id caller = .error taskNotFound404 ↔
      dbGetTask db task_id = none) ∧
    (∀ t, dbGetTask db task_id = some t → get_task db task_id caller = .ok t) ∧
    get_task db task_id caller = get_task db task_id caller' := by
  refine ⟨?_, ?_, rfl⟩ <;> unfold get_task
  · cases h : dbGetTask db task_id <;> simp
  · intro t h
    rw [h]

/-- C7 witness: on a one-task store any caller gets the task; on the
empty store the same lookup is a 404. -/
theorem get_task_spec_witness :
    get_task [tAbc] 3 99 = .ok tAbc ∧
    get_task ([] : List Task) 3 99 = .error taskNotFound404 :=
  ⟨(get_task_spec [tAbc] 3 99 0).2.1 tAbc (by decide),
   (get_task_spec [] 3 99 0).1.mpr (by decide)⟩

/-! ## C3: ownership is enforced on every mutation -/

/-- C3 (counterexample): caller 2 is not the owner of existing task 3
(owned by user 1), yet their update carrying the schema-invalid status
string "Done" is answered 422 by pydantic's body validation before the
ownership check runs — not Forbidden — so "fails with Forbidden
regardless of the payload's validity" is false through the route. -/
theorem nonowner_invalid_payload_422 :
    update_task_route [tAbc] 3 ⟨none, none, some (some ("Done".data))⟩ 2 =
      { db := [tAbc], res := .error validationError422, commits := 0 } ∧
    validationError422 ≠ notOwner403 := by
  constructor
  · decide
  · decide

/-- C3 (amended): when the caller is not the owner of an existing task,
`complete` and `delete` answer 403 with the store untouched, and so
does `update` for every payload that reaches the handler — the
handler's ownership check precedes all payload processing, so even a
payload whose status string is outside the enumeration gets 403 at the
handler; through the route the same holds for every schema-valid
payload, while a schema-invalid payload is rejected 422 by validation
before the ownership check. -/
theorem ownership_forbidden (db : List Task) (task_id current_user : Nat)
    (t : Task) (payload valid_payload : TaskUpdate)
    (hfind : dbGetTask db task_id = some t)
    (hown : t.user_id ≠ current_user)
    (hvalid : validateTaskUpdate valid_payload = .ok valid_payload) :
    complete_task db task_id current_user =
      { db := db, res := .error notOwner403, commits := 0 } ∧
    update_task db task_id payload current_user =
      { db := db, res := .error notOwner403, commits := 0 } ∧
    delete_task db task_id current_user =
      { db := db, res := .error notOwner403, commits := 0 } ∧
    update_task_route db task_id valid_payload current_user =
      { db := db, res := .error notOwner403, commits := 0 } := by
  have hupd : ∀ q : TaskUpdate, update_task db task_id q current_user =
      { db := db, res := .error notOwner403, commits := 0 } := by
    intro q
    unfold update_task
    rw [hfind]
    simp [hown]
  refine ⟨?_, hupd payload, ?_, ?_⟩
  · unfold complete_task
    rw [hfind]
    simp [hown]
  · unfold delete_task
    rw [hfind]
    simp [hown]
  · unfold update_task_route
    rw [hvalid]
    exact hupd valid_payload

/-- C3 witness: caller 2 is not the owner of task 3 (owned by user 1);
all three handler-level mutations answer 403 even with a payload whose
status string is outside the enumeration, and the full route answers
403 for a schema-valid payload. -/
theorem ownership_forbidden_witness :
    complete_task [tAbc] 3 2 =
      { db := [tAbc], res := .error notOwner403, commits := 0 } ∧
    update_task [tAbc] 3 ⟨none, none, some (some ("Done".data))⟩ 2 =
      { db := [tAbc], res := .error notOwner403, commits := 0 } ∧
    delete_task [tAbc] 3 2 =
      { db := [tAbc], res := .error notOwner403, commits := 0 } ∧
    update_task_route [tAbc] 3 ⟨some (some ['H','i']), none, none⟩ 2 =
      { db := [tAbc], res := .error notOwner403, commits := 0 } :=
  ownership_forbidden [tAbc] 3 2 tAbc ⟨none, none, some (some ("Done".data))⟩
    ⟨some (some ['H','i']), none, none⟩ (by decide) (by decide) (by decide)

/-! ## C10: the in-handler password-length branch is unreachable -/

/-- C10: any registration body that passed the pydantic schema
(`min_length=6`) has a password of at least 6 characters, so the
handler's own "shorter than 6" branch never fires: `register` behaves
exactly as its guard-free remainder. -/
theorem register_guard_unreachable (praw p : UserCreate)
    (users : List User) (hash : List Char → List Char)
    (h : validateUserCreate praw = .ok p) :
    6 ≤ p.password.length ∧
    register users hash p = registerPostGuard users hash p := by
  unfold validateUserCreate at h
  split at h
  · exact absurd h (by simp)
  · next hlen =>
    cases h
    have h6 : 6 ≤ praw.password.length := by omega
    exact ⟨h6, by unfold register; rw [if_neg (by omega)]⟩

/-- C10 witness: a concrete schema-valid registration, run through
`register` on the empty store. -/
theorem register_guard_unreachable_witness :
    6 ≤ uFarida.password.length ∧
    register [] (fun s => s) uFarida = registerPostGuard [] (fun s => s) uFarida :=
  register_guard_unreachable uFarida uFarida [] (fun s => s) (by decide)

/-! ## C4: complete is owner-only and idempotent -/

/-- C4: for an existing task owned by the caller, `complete` answers the
task with status Completed, and a second call on the same id answers
the same Completed task with no error and zero `db.commit()` calls
(the write is skipped by the `status != COMPLETED` guard). -/
theorem complete_idempotent (db : List Task) (task_id caller : Nat) (t : Task)
    (hfind : dbGetTask db task_id = some t) (hown : t.user_id = caller) :
    (complete_task db task_id caller).res =
      .ok { t with status := some .completed } ∧
    complete_task (complete_task db task_id caller).db task_id caller =
      { db := (complete_task db task_id caller).db,
        res := .ok { t with status := some .completed }, commits := 0 } := by
  have hid : t.id = task_id := find?_id_eq hfind
  by_cases hc : t.status = some TaskStatus.completed
  · have heta : { t with status := some TaskStatus.completed } = t := by
      cases t
      simp_all
    have h1 : complete_task db task_id caller = { db := db, res := .ok t, commits := 0 } := by
      unfold complete_task
      rw [hfind]
      simp [hown, hc]
    rw [heta, h1]
    refine ⟨rfl, ?_⟩
    unfold complete_task
    rw [hfind]
    simp [hown, hc]
  · have h1 : complete_task db task_id caller =
        { db := dbPutTask db task_id { t with status := some .completed },
          res := .ok { t with status := some .completed }, commits := 1 } := by
      unfold complete_task
      rw [hfind]
      simp [hown, hc]
    have hfind2 : dbGetTask (dbPutTask db task_id { t with status := some .completed })
        task_id = some { t with status := some .completed } :=
      dbGetTask_put _ hfind (by simpa using hid)
    rw [h1]
    refine ⟨rfl, ?_⟩
    unfold complete_task
    rw [hfind2]
    simp [hown]

/-- C4 witness: completing task 3 (status New, owner 1) as user 1, then
completing it again on the updated store. -/
theorem complete_idempotent_witness :
    (complete_task [tAbc] 3 1).res = .ok { tAbc with status := some .completed } ∧
    complete_task (complete_task [tAbc] 3 1).db 3 1 =
      { db := (complete_task [tAbc] 3 1).db,
        res := .ok { tAbc with status := some .completed }, commits := 0 } :=
  complete_idempotent [tAbc] 3 1 tAbc (by decide) (by decide)

/-! ## C9: an explicit null status slips past the enum check -/

/-- C9: a patch whose `status` key is explicitly `null` passes schema
validation, skips the enum-validation branch (which only runs for
non-null values — `buildData` returns `ok`, never `InvalidStatus`), and
`None` is assigned to the in-memory task's status field even though the
column is declared `nullable=False`; the commit of that null then
raises the uncaught NOT NULL `IntegrityError` (500, nothing persisted),
whereas a patch with no `status` key succeeds and leaves the stored
status untouched — explicit null is not treated the same as omitted. -/
theorem update_explicit_null_status (db : List Task) (task_id caller : Nat)
    (t : Task) (hfind : dbGetTask db task_id = some t)
    (hown : t.user_id = caller) (hstored : t.status ≠ none)
    (htitle : t.title ≠ none) :
    validateTaskUpdate ⟨none, none, some none⟩ = .ok ⟨none, none, some none⟩ ∧
    buildData ⟨none, none, some none⟩ = .ok [FieldSet.fstatus none] ∧
    (List.foldl setField t [FieldSet.fstatus none]).status = none ∧
    update_task_route db task_id ⟨none, none, some none⟩ caller =
      { db := db, res := .error internalError500, commits := 0 } ∧
    (update_task_route db task_id ⟨none, none, none⟩ caller).res = .ok t := by
  refine ⟨rfl, rfl, rfl, ?_, ?_⟩
  · unfold update_task_route update_task
    rw [hfind]
    simp [hown, validateTaskUpdate, validateTaskUpdate.validateStatusField,
      buildData, setField]
  · unfold update_task_route update_task
    rw [hfind]
    simp [hown, validateTaskUpdate, validateTaskUpdate.validateStatusField,
      buildData, htitle, hstored]

/-- C9 witness: an explicit `{"status": null}` patch on task 3 passes
validation, skips the enum branch, assigns `none` in memory and ends in
the 500 commit failure with the store unchanged, while the empty patch
answers the task as stored. -/
theorem update_explicit_null_status_witness :
    validateTaskUpdate ⟨none, none, some none⟩ = .ok ⟨none, none, some none⟩ ∧
    buildData ⟨none, none, some none⟩ = .ok [FieldSet.fstatus none] ∧
    (List.foldl setField tAbc [FieldSet.fstatus none]).status = none ∧
    update_task_route [tAbc] 3 ⟨none, none, some none⟩ 1 =
      { db := [tAbc], res := .error internalError500, commits := 0 } ∧
    (update_task_route [tAbc] 3 ⟨none, none, none⟩ 1).res = .ok tAbc :=
  update_explicit_null_status [tAbc] 3 1 tAbc (by decide) (by decide)
    (by decide) (by decide)

/-! ## C1: the response does not carry total_pages -/

/-- C1 (code bug): on a concrete listing call the handler computes
`total_pages = ceil(total/limit)` internally (`totalPagesOf 1 10 = 1`),
but the value returned to the caller is exactly the four-field
`schemas.PaginatedTasks` record — the schema declares no `total_pages`
field, so the pydantic constructor silently drops the keyword and the
response carries no such field, contradicting the spec, the code's own
comment and the repository's test `test_create_and_list_mine`. -/
theorem paginated_response_lacks_total_pages :
    list_tasks [tMilk] none none ("id".data) ("desc".data) 1 10 =
      { items := [tMilk], total := 1, page := 1, limit := 10 } ∧
    totalPagesOf 1 10 = 1 :=
  ⟨by decide, rfl⟩

/-! ## C2: unrecognized sort field -/

/-- C2 (counterexample): a list request whose sort field is the
unrecognized string "owner" does fail — FastAPI rejects it with a 422
validation error because `sort_by` is declared
`Literal["id", "title", "status", "user_id"]`, so the handler (and its
default-to-id fallback) never runs. -/
theorem sort_field_unrecognized_fails :
    list_tasks_route [tMilk] none none (some ("owner".data)) none none none =
      .error validationError422 := by
  decide

/-- C2 (amended): the `_order_column` helper does map every sort field
outside {title, status, user_id} — in particular every unrecognized
one — to the `id` column as a safe fallback, but a request carrying an
unrecognized `sort_by` never reaches it: the route's `Literal`
declaration rejects the request with a 422 validation error. -/
theorem sort_field_fallback_amended (s : List Char) (db : List Task)
    (statusRaw qRaw sortDirRaw : Option (List Char))
    (pageRaw limitRaw : Option Int)
    (h : ¬(s = "id".data ∨ s = "title".data ∨ s = "status".data ∨
      s = "user_id".data)) :
    _order_column s = SortCol.cid ∧
    list_tasks_route db statusRaw qRaw (some s) sortDirRaw pageRaw limitRaw =
      .error validationError422 := by
  push_neg at h
  obtain ⟨h1, h2, h3, h4⟩ := h
  constructor
  · unfold _order_column
    rw [if_neg h2, if_neg h3, if_neg h4]
  · have hsort : parseSortBy (some s) = .error validationError422 := by
      simp only [parseSortBy]
      rw [if_neg (by tauto)]
    unfold list_tasks_route
    cases hst : parseStatusParam statusRaw with
    | error e =>
      have he : e = validationError422 := by
        unfold parseStatusParam at hst
        cases statusRaw with
        | none => simp at hst
        | some str =>
          cases hts : taskStatusOfString str <;> simp_all [hts]
      simp [he]
    | ok v =>
      simp only
      rw [hsort]

/-- C2 witness: the amended statement at the concrete sort field
"owner" on the empty store. -/
theorem sort_field_fallback_amended_witness :
    _order_column ("owner".data) = SortCol.cid ∧
    list_tasks_route [] none none (some ("owner".data)) none none none =
      .error validationError422 :=
  sort_field_fallback_amended ("owner".data) [] none none none none none
    (by decide)

/-! ## C5: token round-trip and expiry -/

theorem digitVal_digitChar {d : Nat} (h : d < 10) :
    digitVal (digitChar d) = d := by
  interval_cases d <;> rfl

theorem natToChars_spec :
    ∀ fuel n, n < fuel →
      natToChars fuel n ≠ [] ∧
      (natToChars fuel n).all (fun c => digitVal c < 10) = true ∧
      (natToChars fuel n).foldl (fun a c => a * 10 + digitVal c) 0 = n := by
  intro fuel
  induction fuel with
  | zero => intro n h; omega
  | succ f ih =>
    intro n h
    by_cases h10 : n < 10
    · have hv := digitVal_digitChar h10
      refine ⟨by simp [natToChars, h10], ?_, ?_⟩
      · simp [natToChars, h10, hv]
      · simp [natToChars, h10, hv]
    · have hdiv : n / 10 < f := by
        have hlt : n / 10 < n := Nat.div_lt_self (by omega) (by omega)
        omega
      obtain ⟨hne, hall, hfold⟩ := ih (n / 10) hdiv
      have hmod : n % 10 < 10 := Nat.mod_lt _ (by omega)
      have hrw : natToChars (f + 1) n =
          natToChars f (n / 10) ++ [digitChar (n % 10)] := by
        rw [natToChars]
        simp [h10]
      refine ⟨by simp [hrw], ?_, ?_⟩
      · simp only [hrw, List.all_append, hall, Bool.true_and, List.all_cons,
          List.all_nil, Bool.and_true]
        simp [digitVal_digitChar hmod]
        omega
      · rw [hrw, List.foldl_append, hfold]
        simp [digitVal_digitChar hmod]
        omega

theorem charsToNat_natToStr (n : Nat) : charsToNat (natToStr n) = some n := by
  obtain ⟨hne, hall, hfold⟩ := natToChars_spec (n + 1) n (by omega)
  unfold charsToNat natToStr
  rw [if_pos ⟨hne, hall⟩, hfold]

theorem decode_token_expired {tok : Token} {secret : List Char} {t : Nat}
    (hsig : tok.sig = (secret, tok.payload)) (h : tok.payload.exp < t) :
    decode_token tok secret t = none := by
  unfold decode_token
  rw [if_neg (fun hc => hc hsig), if_pos h]

/-- C5: verifying a token with the issuing secret immediately after
issuance resolves the subject back to the issuing user id, for every
user id, every configured or per-call expiry and every issuance time;
and once the expiry instant has passed, verification fails with the 401
credentials error instead. -/
theorem token_roundtrip (uid : Nat) (em : Option Nat) (cfg : Nat)
    (secret : List Char) (now t : Nat)
    (hexp : (create_access_token uid em cfg secret now).payload.exp < t) :
    verify_subject (create_access_token uid em cfg secret now) secret now =
      .ok uid ∧
    verify_subject (create_access_token uid em cfg secret now) secret t =
      .error cred401 := by
  constructor
  · unfold verify_subject decode_token create_access_token
    simp [charsToNat_natToStr]
  · have hd := @decode_token_expired
      (create_access_token uid em cfg secret now) secret t rfl hexp
    unfold verify_subject
    rw [hd]

/-- C5 witness: user id 7, default 1440-minute expiry issued at time 0
(expiry 86400); verification at time 0 answers 7, verification at
time 86401 answers the 401 credentials error. -/
theorem token_roundtrip_witness :
    verify_subject (create_access_token 7 none 1440 ("k".data) 0) ("k".data) 0 =
      .ok 7 ∧
    verify_subject (create_access_token 7 none 1440 ("k".data) 0) ("k".data)
      86401 = .error cred401 :=
  token_roundtrip 7 none 1440 ("k".data) 0 86401 (by decide)

/-! ## C8: what the search filter guarantees -/

theorem likeMatch_star {ps : List Char} :
    ∀ s, likeMatch ('%' :: ps) s = true →
      ∃ t, t <:+ s ∧ likeMatch ps t = true := by
  intro s
  induction s with
  | nil =>
    intro h
    simp [likeMatch] at h
    exact ⟨[], List.suffix_rfl, h⟩
  | cons c rest ih =>
    intro h
    simp [likeMatch] at h
    rcases h with h | h
    · exact ⟨c :: rest, List.suffix_rfl, h⟩
    · obtain ⟨t, hts, hm⟩ := ih h
      exact ⟨t, hts.trans (List.suffix_cons c rest), hm⟩

theorem likeMatch_lit :
    ∀ (q s : List Char), noWild q = true → likeMatch (q ++ ['%']) s = true →
      (q.map Char.toLower) <+: (s.map Char.toLower) := by
  intro q
  induction q with
  | nil =>
    intro s _ _
    simp
  | cons c q' ih =>
    intro s hw h
    unfold noWild at hw
    rw [List.all_cons, Bool.and_eq_true] at hw
    obtain ⟨hcb, hwq⟩ := hw
    rw [Bool.and_eq_true, Bool.not_eq_true', Bool.not_eq_true'] at hcb
    have hc1 : ¬(c = '%') := by simpa using hcb.1
    have hc2 : ¬(c = '_') := by simpa using hcb.2
    rw [List.cons_append, likeMatch.eq_def] at h
    simp only [if_neg hc1, if_neg hc2] at h
    cases s with
    | nil => simp at h
    | cons d rest =>
      simp only [Bool.and_eq_true] at h
      have hlow : Char.toLower c = Char.toLower d := by
        have := h.1
        simpa [chEq] using this
      have hpre := ih rest (by unfold noWild; exact hwq) h.2
      simp only [List.map_cons, List.cons_prefix_cons]
      exact ⟨hlow, hpre⟩

theorem containsSub_of_infix : ∀ {n h : List Char}, n <:+: h →
    containsSub n h = true := by
  intro n h
  induction h with
  | nil =>
    intro hi
    rw [List.infix_nil] at hi
    subst hi
    rfl
  | cons c rest ih =>
    intro hi
    rw [List.infix_cons_iff] at hi
    unfold containsSub
    rw [Bool.or_eq_true]
    rcases hi with hi | hi
    · exact Or.inl (by rw [ List.isPrefixOf_iff_prefix]; exact hi)
    · exact Or.inr (ih hi)

theorem substrCI_of_likeMatch {q s : List Char} (hw : noWild q = true)
    (h : likeMatch (likePattern q) s = true) : substrCI q s = true := by
  unfold likePattern at h
  obtain ⟨t, hts, hm⟩ := likeMatch_star s h
  have hpre := likeMatch_lit q t hw hm
  have hsuf : (t.map Char.toLower) <:+ (s.map Char.toLower) := hts.map _
  obtain ⟨u, hu⟩ := hpre
  obtain ⟨v, hv⟩ := hsuf
  have hinf : (q.map Char.toLower) <:+: (s.map Char.toLower) :=
    ⟨v, u, by rw [← hv, ← hu, List.append_assoc]⟩
  unfold substrCI
  exact containsSub_of_infix hinf

theorem mem_insertLe {le : Task → Task → Bool} {x a : Task} :
    ∀ l, a ∈ insertLe le x l → a = x ∨ a ∈ l := by
  intro l
  induction l with
  | nil =>
    intro h
    simp [insertLe] at h
    exact Or.inl h
  | cons y ys ih =>
    intro h
    unfold insertLe at h
    by_cases hle : le x y
    · rw [if_pos hle] at h
      simpa using h
    · rw [if_neg hle] at h
      rcases List.mem_cons.mp h with h | h
      · exact Or.inr (by simp [h])
      · rcases ih h with h | h
        · exact Or.inl h
        · exact Or.inr (List.mem_cons_of_mem _ h)

theorem mem_sortTasks {le : Task → Task → Bool} {a : Task} :
    ∀ l, a ∈ sortTasks le l → a ∈ l := by
  intro l
  induction l with
  | nil =>
    intro h
    simp [sortTasks] at h
  | cons y ys ih =>
    intro h
    unfold sortTasks at h
    rcases mem_insertLe _ h with h | h
    · simp [h]
    · exact List.mem_cons_of_mem _ (ih h)

theorem mem_listPipeline_items {rows : List Task} {sf : Option TaskStatus}
    {q : Option (List Char)} {sb sd : List Char} {page limit : Nat} {t : Task}
    (h : t ∈ (listPipeline rows sf q sb sd page limit).items) :
    t ∈ applyFilters sf q rows := by
  unfold listPipeline at h
  simp only at h
  exact mem_sortTasks _ (List.mem_of_mem_drop (List.mem_of_mem_take h))

theorem applyFilters_pred {sf : Option TaskStatus} {qs : List Char}
    {rows : List Task} {t : Task} (hq : qs ≠ [])
    (h : t ∈ applyFilters sf (some qs) rows) :
    (colLike t.title (likePattern qs) ||
      colLike t.description (likePattern qs)) = true := by
  unfold applyFilters at h
  dsimp only at h
  rw [if_neg (by simp [List.isEmpty_iff, hq])] at h
  exact (List.mem_filter.mp h).2

/-- C8 (amended): for a search string free of the SQL LIKE wildcards
`%` and `_`, every item returned by either listing endpoint has the
search string as a case-insensitive substring of its title or of its
description (an OR across the two fields).  For a search string
containing a wildcard the filter applies LIKE-pattern semantics
instead, so the substring reading fails (see the counterexample). -/
theorem search_filter_substring (db : List Task) (uid : Nat)
    (sf : Option TaskStatus) (qs sb sd : List Char) (page limit : Nat)
    (t u : Task) (hw : noWild qs = true) (hq : qs ≠ [])
    (ht : t ∈ (list_tasks db sf (some qs) sb sd page limit).items)
    (hu : u ∈ (list_my_tasks db uid sf (some qs) sb sd page limit).items) :
    (fieldSubstrCI qs t.title || fieldSubstrCI qs t.description) = true ∧
    (fieldSubstrCI qs u.title || fieldSubstrCI qs u.description) = true := by
  have key : ∀ v : Task,
      (colLike v.title (likePattern qs) ||
        colLike v.description (likePattern qs)) = true →
      (fieldSubstrCI qs v.title || fieldSubstrCI qs v.description) = true := by
    intro v hv
    rw [Bool.or_eq_true] at hv ⊢
    rcases hv with hv | hv
    · left
      unfold colLike at hv
      unfold fieldSubstrCI
      cases hvt : v.title with
      | none => rw [hvt] at hv; exact absurd hv (by simp)
      | some s => rw [hvt] at hv; exact substrCI_of_likeMatch hw hv
    · right
      unfold colLike at hv
      unfold fieldSubstrCI
      cases hvt : v.description with
      | none => rw [hvt] at hv; exact absurd hv (by simp)
      | some s => rw [hvt] at hv; exact substrCI_of_likeMatch hw hv
  unfold list_tasks at ht
  unfold list_my_tasks at hu
  exact ⟨key t (applyFilters_pred hq (mem_listPipeline_items ht)),
    key u (applyFilters_pred hq (mem_listPipeline_items hu))⟩

set_option maxRecDepth 8192 in
/-- C8 witness: searching "milk" (wildcard-free) over a store holding
the "Buy milk" task; the task is returned by both endpoints and "milk"
is a case-insensitive substring of its title (and description). -/
theorem search_filter_substring_witness :
    (fieldSubstrCI ['m','i','l','k'] tMilk.title ||
      fieldSubstrCI ['m','i','l','k'] tMilk.description) = true ∧
    (fieldSubstrCI ['m','i','l','k'] tMilk.title ||
      fieldSubstrCI ['m','i','l','k'] tMilk.description) = true :=
  search_filter_substring [tMilk] 1 none ['m','i','l','k'] ['i','d']
    ['d','e','s','c'] 1 10 tMilk tMilk (by decide) (by decide)
    (by simp [list_tasks, listPipeline, applyFilters, tMilk, colLike,
      likePattern, likeMatch, chEq, sortTasks, insertLe])
    (by simp [list_my_tasks, listPipeline, applyFilters, tMilk, colLike,
      likePattern, likeMatch, chEq, sortTasks, insertLe])

set_option maxRecDepth 8192 in
/-- C8 (counterexample): the search string "%" is a valid non-empty
query, and the LIKE pattern built around it (`%%%`) matches every row —
the task titled "abc" is returned although "%" is not a substring of its
title or description, so the claim's substring reading fails for
wildcard-carrying search strings. -/
theorem search_percent_counterexample :
    tAbc ∈ (list_tasks [tAbc] none (some ['%']) ['i','d'] ['d','e','s','c']
      1 10).items ∧
    (fieldSubstrCI ['%'] tAbc.title ||
      fieldSubstrCI ['%'] tAbc.description) = false := by
  constructor
  · simp [list_tasks, listPipeline, applyFilters, tAbc, colLike, likePattern,
      likeMatch, chEq, sortTasks, insertLe]
  · decide

/-! ## C6: partial-update semantics -/

/-- C6 (counterexample): an owner-called update whose patch carries the
unrecognized status string "Done" does not fail with the handler's 400
"Invalid status" — pydantic's `Optional[StatusLiteral]` rejects the
body with a 422 validation error before the handler runs. -/
theorem update_unknown_status_counterexample :
    update_task_route [tAbc] 3 ⟨none, none, some (some ("Done".data))⟩ 1 =
      { db := [tAbc], res := .error validationError422, commits := 0 } ∧
    validationError422 ≠ invalidStatus400 := by
  constructor
  · decide
  · decide

/-- C6 (amended): for an owner-called update on an existing task with a
patch that passes schema validation, the handler computes exactly the
merge that applies the fields present in the patch and leaves absent
fields untouched (a present `null` is applied as `null`, distinct from
an omitted field); the commit then persists that merge — unless it left
a NOT NULL column (`title`, `status`) null, in which case the uncaught
`IntegrityError` yields a 500 and nothing is persisted.  A patch
carrying a status string outside the enumeration is rejected by schema
validation with a 422 before the handler runs, so the handler's own
`InvalidStatus` 400 branch is never the outcome. -/
theorem update_partial_semantics (db : List Task) (task_id caller : Nat)
    (t : Task) (p : TaskUpdate) (bad : List Char)
    (hfind : dbGetTask db task_id = some t) (hown : t.user_id = caller)
    (hvalid : validateTaskUpdate p = .ok p)
    (hbad : taskStatusOfString bad = none) :
    update_task_route db task_id p caller =
      (if (mergePatch p t).title = none ∨ (mergePatch p t).status = none then
        { db := db, res := .error internalError500, commits := 0 }
      else
        { db := dbPutTask db task_id (mergePatch p t),
          res := .ok (mergePatch p t), commits := 1 }) ∧
    update_task_route db task_id ⟨none, none, some (some bad)⟩ caller =
      { db := db, res := .error validationError422, commits := 0 } := by
  constructor
  · unfold update_task_route
    rw [hvalid]
    unfold update_task
    rw [hfind]
    dsimp only
    rw [if_neg (by simp [hown])]
    unfold validateTaskUpdate validateTaskUpdate.validateStatusField at hvalid
    rcases p with ⟨pt, pd, ps⟩
    rcases ps with _ | ⟨_ | s⟩
    · cases pt <;> cases pd <;> simp [buildData, setField, mergePatch]
    · cases pt <;> cases pd <;> simp [buildData, setField, mergePatch]
    · have hst : ∃ st, taskStatusOfString s = some st := by
        cases hts : taskStatusOfString s with
        | some st => exact ⟨st, rfl⟩
        | none =>
          exfalso
          rcases pt with _ | ⟨_ | tv⟩ <;> simp [hts] at hvalid
      obtain ⟨st, hst⟩ := hst
      cases pt <;> cases pd <;> simp [buildData, hst, setField, mergePatch]
  · unfold update_task_route
    simp [validateTaskUpdate, validateTaskUpdate.validateStatusField, hbad]

/-- C6 witness: owner updates task 3 setting a new title and the status
"Completed" while omitting the description; exactly those two fields
change and the write persists, while the same request with status
"Done" is a 422. -/
theorem update_partial_semantics_witness :
    update_task_route [tAbc] 3
      ⟨some (some ['N','e','w','T']), none, some (some ("Completed".data))⟩
      1 =
      { db :=
          [{ id := 3, title := some ['N','e','w','T'], description := none,
             status := some TaskStatus.completed, user_id := 1 }],
        res :=
          .ok { id := 3, title := some ['N','e','w','T'], description := none,
                status := some TaskStatus.completed, user_id := 1 },
        commits := 1 } ∧
    update_task_route [tAbc] 3 ⟨none, none, some (some ("Done".data))⟩ 1 =
      { db := [tAbc], res := .error validationError422, commits := 0 } := by
  have h := update_partial_semantics [tAbc] 3 1 tAbc
    ⟨some (some ['N','e','w','T']), none, some (some ("Completed".data))⟩
    ("Done".data) (by decide) (by decide) (by decide) (by decide)
  exact ⟨h.1.trans (by decide), h.2⟩

end TodoApi
